import Mathlib

/-!
Shallow embedding of the streaming conversation adapter of the
`amazon-q-developer-cli` chat client (crates/chat-cli), covering:

* the internal conversation data model (`ConversationState`, `ChatMessage`,
  tool results/uses/specs) and the Bedrock wire-message model;
* the message encoder `convert_to_bedrock_messages` / `convert_tools_to_bedrock`
  / `extract_system_prompt` (src/crates/chat-cli/src/api_client/bedrock.rs);
* the model allow-list `get_builtin_models` / `validate_model_id` /
  `model_supports_tools` (src/crates/chat-cli/src/cli/chat/cli/model.rs);
* the error classifier `classify_error_kind` and the `send_message`
  orchestration including the deterministic mock path
  (src/crates/chat-cli/src/api_client/mod.rs);
* the Bedrock stream adapter `SendMessageOutputBedrock::recv` modelled as a
  step function over a list of wire events
  (src/crates/chat-cli/src/api_client/send_message_output.rs).

Machine integers are modelled as `Nat`; fallible Rust code returns
`Except`/`Option`.  The network call itself is represented by the value of the
fully built request (`DispatchedRequest`): the embedding of `send_message`
returns either an error kind or the action it would perform (dispatch a
request / serve the mock queue).
-/

namespace QCli

/-! ## Data model

The internal message types live in `api_client/model.rs`, which is not among
the provided sources; their shapes are reconstructed from every field access
in the provided files (bedrock.rs, mod.rs, send_message_output.rs) and from
spec section 3.  Fields never read by the embedded code (image attachments,
user intent) are omitted.  `Document` stands for the opaque JSON document type
(`aws_smithy_types::Document` / the internal schema document): the embedded
code only ever carries documents around, never inspects them.
-/

/-- Opaque JSON-shaped document carried through conversion unchanged. -/
inductive Document where
  | null : Document
  | bool (b : Bool) : Document
  | num (n : Int) : Document
  | str (s : String) : Document
  | arr (elems : List Document) : Document
  | obj (fields : List (String × Document)) : Document

/-- Status carried by a tool result (model.rs, used in bedrock.rs). -/
inductive ToolResultStatus where
  | Success : ToolResultStatus
  | Error : ToolResultStatus

/-- One content block inside a tool result: plain text or structured JSON. -/
inductive ToolResultContentBlock where
  | Text (t : String) : ToolResultContentBlock
  | Json (d : Document) : ToolResultContentBlock

/-- Result of a prior tool invocation, attached to a user message. -/
structure ToolResult where
  tool_use_id : String
  status : ToolResultStatus
  content : List ToolResultContentBlock

/-- A prior tool invocation recorded on an assistant message. -/
structure ToolUse where
  tool_use_id : String
  name : String
  input : Document

/-- Input schema of a tool specification; `json` may be absent
(an unresolvable schema). -/
structure ToolInputSchemaSpec where
  json : Option Document

/-- A tool specification as supplied by the caller. -/
structure ToolSpecification where
  name : String
  description : String
  input_schema : ToolInputSchemaSpec

/-- The internal `Tool` enum; the only variant is a specification. -/
inductive Tool where
  | ToolSpecification (spec : ToolSpecification) : Tool

/-- Context bundle attached to a user message: prior tool results and the
available tool specifications. -/
structure UserInputMessageContext where
  tool_results : Option (List ToolResult)
  tools : Option (List Tool)

/-- The current user turn. -/
structure UserInputMessage where
  content : String
  user_input_message_context : Option UserInputMessageContext
  model_id : Option String

/-- A prior assistant reply in the history. -/
structure AssistantResponseMessage where
  content : String
  tool_uses : Option (List ToolUse)

/-- One history entry. -/
inductive ChatMessage where
  | UserInputMessage (m : UserInputMessage) : ChatMessage
  | AssistantResponseMessage (m : AssistantResponseMessage) : ChatMessage

/-- The provider-agnostic conversation handed to `send_message`
(fields exactly as destructured in `ApiClient::send_message`). -/
structure ConversationState where
  conversation_id : Option String
  user_input_message : UserInputMessage
  history : Option (List ChatMessage)
  service_tier : Option String
  model_system_prompt : Option String
  agent_prompt : Option String

/-- The provider-agnostic response stream event (`ChatResponseStream` in
model.rs): the two variants produced by the embedded code. -/
inductive ChatResponseStream where
  | AssistantResponseEvent (content : String) : ChatResponseStream
  | ToolUseEvent (tool_use_id : String) (name : String)
      (input : Option String) (stop : Option Bool) : ChatResponseStream
deriving DecidableEq

/-! ## Bedrock wire-message model

Mirrors the `aws_sdk_bedrockruntime::types` values the encoder builds.  The
SDK builders fail only when a required field was never set; every build site
in bedrock.rs sets all required fields (role, content, tool_use_id, name,
input_schema), so the builds are embedded as total constructions.
-/

inductive ConversationRole where
  | User : ConversationRole
  | Assistant : ConversationRole

inductive BedrockToolResultStatus where
  | Success : BedrockToolResultStatus
  | Error : BedrockToolResultStatus

inductive BedrockToolResultContentBlock where
  | Text (t : String) : BedrockToolResultContentBlock
  | Json (d : Document) : BedrockToolResultContentBlock

/-- A Bedrock message content block (the variants the encoder emits). -/
inductive ContentBlock where
  | Text (t : String) : ContentBlock
  | ToolUse (tool_use_id : String) (name : String) (input : Document) : ContentBlock
  | ToolResult (tool_use_id : String)
      (content : List BedrockToolResultContentBlock)
      (status : BedrockToolResultStatus) : ContentBlock

/-- A Bedrock wire message. -/
structure Message where
  role : ConversationRole
  content : List ContentBlock

/-- A Bedrock tool entry (`BedrockTool::ToolSpec`). -/
inductive BedrockTool where
  | ToolSpec (name : String) (description : String) (input_schema : Document) : BedrockTool

/-- Bedrock tool configuration. -/
structure ToolConfiguration where
  tools : List BedrockTool

/-- Bedrock service tier type. -/
inductive ServiceTierType where
  | Flex : ServiceTierType
  | Default : ServiceTierType

/-! ## Model allow-list (cli/chat/cli/model.rs) -/

/-- Static model capability entry. -/
structure ModelInfo where
  model_name : Option String
  description : Option String
  model_id : String
  context_window_tokens : Nat
  supports_tools : Bool

/-- `get_builtin_models`: the hardcoded list of allowed Bedrock models. -/
def get_builtin_models : List ModelInfo :=
  [ { model_id := "openai.gpt-oss-120b-1:0",
      model_name := some "ChatGPT 120B",
      description := some "OpenAI GPT 120B model",
      context_window_tokens := 128000,
      supports_tools := true },
    { model_id := "openai.gpt-oss-20b-1:0",
      model_name := some "ChatGPT 20B",
      description := some "OpenAI GPT 20B model",
      context_window_tokens := 128000,
      supports_tools := true },
    { model_id := "us.anthropic.claude-haiku-4-5-20251001-v1:0",
      model_name := some "Claude Haiku 4.5",
      description := some "Anthropic Claude Haiku 4.5",
      context_window_tokens := 200000,
      supports_tools := true },
    { model_id := "qwen.qwen3-coder-480b-a35b-v1:0",
      model_name := some "Qwen3 Coder 480B",
      description := some "Qwen3 Coder 480B model",
      context_window_tokens := 130000,
      supports_tools := false },
    { model_id := "meta.llama4-maverick-17b-instruct-v1:0",
      model_name := some "Llama 4 Maverick 17B",
      description := some "Meta Llama 4 Maverick 17B",
      context_window_tokens := 1000000,
      supports_tools := false },
    { model_id := "deepseek.v3-v1:0",
      model_name := some "DeepSeek V3",
      description := some "DeepSeek V3 model",
      context_window_tokens := 163000,
      supports_tools := false } ]

/-- `get_default_model`: the first builtin model (ChatGPT 120B). -/
def get_default_model : ModelInfo :=
  get_builtin_models.head (by simp [get_builtin_models])

/-- `validate_model_id`: `Ok(())` when the id is in the allow-list,
otherwise the `eyre::bail!` message. -/
def validate_model_id (model_id : String) : Except String Unit :=
  if get_builtin_models.any (fun m => m.model_id == model_id) then
    Except.ok ()
  else
    Except.error "This model is not supported in this deployment."

/-- `model_supports_tools`: capability lookup, `false` when the id is
absent from the builtin list. -/
def model_supports_tools (model_id : String) : Bool :=
  ((get_builtin_models.find? (fun m => m.model_id == model_id)).map
    (fun m => m.supports_tools)).getD false

/-! ## Error classifier (api_client/mod.rs, `classify_error_kind`) -/

/-- `ConverseStreamErrorKind` (api_client/error.rs, shapes taken from every
construction site in mod.rs).  The underlying SDK error is represented by its
reason code string, the only datum `classify_error_kind` extracts from it. -/
inductive ConverseStreamErrorKind where
  | ContextWindowOverflow : ConverseStreamErrorKind
  | ModelOverloadedError : ConverseStreamErrorKind
  | Throttling : ConverseStreamErrorKind
  | MonthlyLimitReached : ConverseStreamErrorKind
  | ModelNotAvailable : ConverseStreamErrorKind
  | InvalidModel : ConverseStreamErrorKind
  | MessageConversion : ConverseStreamErrorKind
  | ApiError : ConverseStreamErrorKind
  | Unknown (reason_code : String) : ConverseStreamErrorKind
deriving DecidableEq

/-- The `contains` closure of `classify_error_kind`:
`haystack.windows(needle.len()).any(|v| v == needle)`.  Response bodies in the
classifier are ASCII, so the byte slices are embedded as character lists. -/
def containsSlice (haystack needle : List Char) : Bool :=
  (List.range (haystack.length + 1 - needle.length)).any
    (fun i => ((haystack.drop i).take needle.length) == needle)

/-- Substring test on strings via `containsSlice` on their characters. -/
def containsStr (haystack needle : String) : Bool :=
  containsSlice haystack.data needle.data

/-- `classify_error_kind`: maps (status code, body, optional model id,
underlying error reason code) to an error kind, first match wins. -/
def classify_error_kind (status_code : Option Nat) (body : String)
    (model_id_opt : Option String) (sdk_error_code : String) :
    ConverseStreamErrorKind :=
  let is_throttling :=
    match status_code with
    | some status => status == 429
    | none => false
  let is_context_window_overflow := containsStr body "Input is too long."
  let is_model_unavailable :=
    containsStr body "INSUFFICIENT_MODEL_CAPACITY"
      || (model_id_opt.isSome
          && (match status_code with
              | some status => status == 500
              | none => false)
          && containsStr body
              "Encountered unexpectedly high load when processing the request, please try again.")
  let is_monthly_limit_err := containsStr body "MONTHLY_REQUEST_COUNT"
  if is_context_window_overflow then
    ConverseStreamErrorKind.ContextWindowOverflow
  else if is_model_unavailable then
    ConverseStreamErrorKind.ModelOverloadedError
  else if is_throttling then
    ConverseStreamErrorKind.Throttling
  else if is_monthly_limit_err then
    ConverseStreamErrorKind.MonthlyLimitReached
  else
    ConverseStreamErrorKind.Unknown sdk_error_code

/-! ## Message encoder (api_client/bedrock.rs) -/

/-- Rust `str::trim`, character-level: the string's characters with leading
and trailing whitespace removed.  Agrees with Rust on the ASCII whitespace
relevant here; the encoder only ever asks whether the trimmed text is empty. -/
def rustTrim (s : String) : List Char :=
  ((s.data.dropWhile Char.isWhitespace).reverse.dropWhile Char.isWhitespace).reverse

/-- Status conversion inside the tool-result loops. -/
def convertToolResultStatus : ToolResultStatus → BedrockToolResultStatus
  | ToolResultStatus.Success => BedrockToolResultStatus.Success
  | ToolResultStatus.Error => BedrockToolResultStatus.Error

/-- Content conversion inside the tool-result loops. -/
def convertToolResultContent : ToolResultContentBlock → BedrockToolResultContentBlock
  | ToolResultContentBlock.Text t => BedrockToolResultContentBlock.Text t
  | ToolResultContentBlock.Json d => BedrockToolResultContentBlock.Json d

/-- One tool result to a Bedrock `ToolResult` content block.  The SDK builder
can fail only on a missing `tool_use_id`, which is always set here, so the
conversion is total. -/
def toolResultToBlock (r : ToolResult) : ContentBlock :=
  ContentBlock.ToolResult r.tool_use_id
    (r.content.map convertToolResultContent)
    (convertToolResultStatus r.status)

/-- The tool-result content blocks contributed by a user message: present only
when the message context carries a tool-result list. -/
def userToolResultBlocks (u : UserInputMessage) : List ContentBlock :=
  match u.user_input_message_context with
  | some ctx =>
    match ctx.tool_results with
    | some results => results.map toolResultToBlock
    | none => []
  | none => []

/-- `convert_chat_message_to_bedrock`: one history entry to a Bedrock message;
`Except.error` mirrors the `eyre::bail!` for a contentless message. -/
def convert_chat_message_to_bedrock (msg : ChatMessage) : Except String Message :=
  match msg with
  | ChatMessage.UserInputMessage user_msg =>
    let content_blocks :=
      (if (rustTrim user_msg.content).isEmpty then []
       else [ContentBlock.Text user_msg.content])
        ++ userToolResultBlocks user_msg
    if content_blocks.isEmpty then
      Except.error "Empty user message"
    else
      Except.ok { role := ConversationRole.User, content := content_blocks }
  | ChatMessage.AssistantResponseMessage assistant_msg =>
    let content_blocks :=
      (if (rustTrim assistant_msg.content).isEmpty then []
       else [ContentBlock.Text assistant_msg.content])
        ++ (match assistant_msg.tool_uses with
            | some tool_uses =>
              tool_uses.map (fun tu => ContentBlock.ToolUse tu.tool_use_id tu.name tu.input)
            | none => [])
    if content_blocks.isEmpty then
      Except.error "Empty assistant message"
    else
      Except.ok { role := ConversationRole.Assistant, content := content_blocks }

/-- History encoding: each entry that converts successfully is kept, a failing
entry is skipped (`if let Ok(..)` in the source). -/
def convertHistory (history : Option (List ChatMessage)) : List Message :=
  match history with
  | some hist => hist.filterMap (fun m => (convert_chat_message_to_bedrock m).toOption)
  | none => []

/-- `convert_to_bedrock_messages`: history first, then the current user turn,
which is emitted only when it produced at least one content block.  The `?`
sites in the source (SDK builders) cannot fail on these paths, so the result
is always `Except.ok`; the `Except` return type mirrors the source signature. -/
def convert_to_bedrock_messages (user_input : UserInputMessage)
    (history : Option (List ChatMessage)) : Except String (List Message) :=
  let histMessages := convertHistory history
  let content_blocks :=
    (if (rustTrim user_input.content).isEmpty then []
     else [ContentBlock.Text user_input.content])
      ++ userToolResultBlocks user_input
  let messages :=
    if content_blocks.isEmpty then histMessages
    else histMessages ++ [{ role := ConversationRole.User, content := content_blocks }]
  Except.ok messages

/-- `convert_tools_to_bedrock`: a supplied tool list always yields a
configuration; a tool whose input schema has no JSON document is dropped by
the `filter_map` (the builders set every required field, so `.ok()` is always
`Some`, and the final `.flatten()` keeps the `Some`). -/
def convert_tools_to_bedrock (tools : Option (List Tool)) : Option ToolConfiguration :=
  tools.map (fun tool_list =>
    { tools := tool_list.filterMap (fun t =>
        match t with
        | Tool.ToolSpecification spec =>
          spec.input_schema.json.map (fun doc =>
            BedrockTool.ToolSpec spec.name spec.description doc)) })

/-- `extract_system_prompt`: model-level prompt first, then agent prompt;
`none` when both are absent. -/
def extract_system_prompt (model_system_prompt : Option String)
    (agent_prompt : Option String) : Option (List String) :=
  let blocks :=
    (match model_system_prompt with
     | some prompt => [prompt]
     | none => [])
      ++ (match agent_prompt with
          | some prompt => [prompt]
          | none => [])
  if blocks.isEmpty then none else some blocks

/-! ## Deterministic mock fixture (api_client/mod.rs) -/

/-- One item of a mock fixture response, as parsed by `set_mock_output`:
a JSON string (plain assistant text) or a JSON object
`(tool_use_id, name, args)` (a simulated tool use). -/
inductive MockItem where
  | text (s : String) : MockItem
  | toolUse (tool_use_id : String) (name : String) (args : String) : MockItem

/-- `split_tool_use_event`: expands one tool-use fixture object into four
events: start, the args split at the midpoint into two input fragments, stop.
`args` is the serialized JSON of the `args` field; the byte midpoint of the
ASCII fixtures coincides with the character midpoint used here. -/
def split_tool_use_event (tool_use_id : String) (name : String)
    (args_str : String) : List ChatResponseStream :=
  let split_point := args_str.length / 2
  [ ChatResponseStream.ToolUseEvent tool_use_id name none none,
    ChatResponseStream.ToolUseEvent tool_use_id name
      (some (args_str.take split_point)) none,
    ChatResponseStream.ToolUseEvent tool_use_id name
      (some (args_str.drop split_point)) none,
    ChatResponseStream.ToolUseEvent tool_use_id name none (some true) ]

/-- `set_mock_output`: each fixture response becomes one event list; strings
become `AssistantResponseEvent`s and objects are expanded by
`split_tool_use_event`. -/
def set_mock_output (json : List (List MockItem)) : List (List ChatResponseStream) :=
  json.map (fun response =>
    (response.map (fun event =>
      match event with
      | MockItem.text assistant_text =>
        [ChatResponseStream.AssistantResponseEvent assistant_text]
      | MockItem.toolUse tool_use_id name args =>
        split_tool_use_event tool_use_id name args)).flatten)

/-- `SendMessageOutput::Mock(vec).recv()` = `vec.pop()`: removes and returns
the last element of the queue, `none` on an empty queue. -/
def mockRecv (vec : List ChatResponseStream) :
    Option (ChatResponseStream × List ChatResponseStream) :=
  match vec.getLast? with
  | some e => some (e, vec.dropLast)
  | none => none

/-- The caller's receive loop over the mock queue: pop until exhausted,
collecting the events in the order they are returned. -/
def drainMock (vec : List ChatResponseStream) : List ChatResponseStream :=
  if h : vec = [] then []
  else vec.getLast h :: drainMock vec.dropLast
termination_by vec.length
decreasing_by
  simp only [List.length_dropLast]
  exact Nat.sub_lt (List.length_pos.mpr h) Nat.one_pos

/-! ## `ApiClient::send_message` (api_client/mod.rs)

The effectful tail of `send_message` (the actual network transmission) is
represented by the fully built request value: the embedding returns either the
error produced before dispatch or the action the function performs.
-/

/-- The converse-stream request as fully assembled by `send_message` just
before `request.send()`. -/
structure DispatchedRequest where
  model_id : String
  messages : List Message
  tool_config : Option ToolConfiguration
  system_prompt : Option (List String)
  service_tier : Option ServiceTierType

/-- What `send_message` does after its pre-dispatch checks: serve the mock
queue, or dispatch a network request. -/
inductive SendAction where
  | mock (events : List ChatResponseStream) : SendAction
  | network (req : DispatchedRequest) : SendAction

/-- `ApiClient::send_message` up to the point of transmission.
`mock_client` holds the remaining fixture responses (the iterator state);
order of operations follows the source exactly: resolve the model id, validate
it against the allow-list, serve the mock if present (next fixture response,
reversed), otherwise convert messages, gate tools on the model capability,
extract the system prompt, map the service tier, and dispatch. -/
def send_message (mock_client : Option (List (List ChatResponseStream)))
    (conversation : ConversationState) :
    Except ConverseStreamErrorKind SendAction :=
  let model_id :=
    conversation.user_input_message.model_id.getD get_default_model.model_id
  match validate_model_id model_id with
  | Except.error _ => Except.error ConverseStreamErrorKind.InvalidModel
  | Except.ok _ =>
    match mock_client with
    | some responses =>
      let new_events := (responses.head?.getD []).reverse
      Except.ok (SendAction.mock new_events)
    | none =>
      match convert_to_bedrock_messages conversation.user_input_message
          conversation.history with
      | Except.error _ => Except.error ConverseStreamErrorKind.MessageConversion
      | Except.ok messages =>
        let supports_tools := model_supports_tools model_id
        let tools := convert_tools_to_bedrock
          (conversation.user_input_message.user_input_message_context.bind
            (fun ctx => ctx.tools))
        let system_prompt := extract_system_prompt conversation.model_system_prompt
          conversation.agent_prompt
        let tool_config := if supports_tools then tools else none
        let service_tier := conversation.service_tier.map (fun tier =>
          if tier == "flex" then ServiceTierType.Flex else ServiceTierType.Default)
        Except.ok (SendAction.network
          { model_id := model_id,
            messages := messages,
            tool_config := tool_config,
            system_prompt := system_prompt,
            service_tier := service_tier })

/-! ## Bedrock stream adapter (api_client/send_message_output.rs)

`SendMessageOutputBedrock::recv` is a loop over incoming wire events that
returns at the first event producing a logical event (or at stream end).  The
adapter state is the optional currently open tool (`current_tool`); the
embedding processes a whole list of wire events and collects every logical
event the repeated `recv` calls would return.
-/

/-- The adapter state for an open tool invocation. -/
structure ToolUseState where
  tool_use_id : String
  name : String
deriving DecidableEq

/-- Payload of a `ContentBlockStart` wire event. -/
inductive ContentBlockStartPayload where
  | toolUse (tool_use_id : String) (name : String) : ContentBlockStartPayload

/-- Payload of a `ContentBlockDelta` wire event: a text fragment, a tool-use
input fragment, or a delta kind the adapter ignores. -/
inductive ContentBlockDeltaPayload where
  | text (t : String) : ContentBlockDeltaPayload
  | toolUse (input : String) : ContentBlockDeltaPayload
  | other : ContentBlockDeltaPayload

/-- One wire event of the Bedrock converse stream, as matched by `recv`. -/
inductive BedrockStreamEvent where
  | contentBlockStart (start : Option ContentBlockStartPayload) : BedrockStreamEvent
  | contentBlockDelta (delta : Option ContentBlockDeltaPayload) : BedrockStreamEvent
  | contentBlockStop : BedrockStreamEvent
  | messageStop : BedrockStreamEvent
  | metadata : BedrockStreamEvent
  | unknown : BedrockStreamEvent

/-- The logical events emitted by repeatedly calling `recv` on a stream that
delivers `events`, starting from adapter state `st`.  Each branch mirrors one
arm of the `match` in `SendMessageOutputBedrock::recv`: a `return` arm emits
an event, a `continue` arm emits nothing, `MessageStop` (and upstream stream
end, the `[]` case) ends the logical stream. -/
def runStream (st : Option ToolUseState) :
    List BedrockStreamEvent → List ChatResponseStream
  | [] => []
  | BedrockStreamEvent.contentBlockStart
      (some (ContentBlockStartPayload.toolUse id name)) :: rest =>
    ChatResponseStream.ToolUseEvent id name none none ::
      runStream (some { tool_use_id := id, name := name }) rest
  | BedrockStreamEvent.contentBlockStart none :: rest => runStream st rest
  | BedrockStreamEvent.contentBlockDelta
      (some (ContentBlockDeltaPayload.text t)) :: rest =>
    if t.isEmpty then runStream st rest
    else ChatResponseStream.AssistantResponseEvent t :: runStream st rest
  | BedrockStreamEvent.contentBlockDelta
      (some (ContentBlockDeltaPayload.toolUse input)) :: rest =>
    match st with
    | some s =>
      ChatResponseStream.ToolUseEvent s.tool_use_id s.name (some input) none ::
        runStream (some s) rest
    | none => runStream none rest
  | BedrockStreamEvent.contentBlockDelta (some ContentBlockDeltaPayload.other) :: rest =>
    runStream st rest
  | BedrockStreamEvent.contentBlockDelta none :: rest => runStream st rest
  | BedrockStreamEvent.contentBlockStop :: rest =>
    match st with
    | some s =>
      ChatResponseStream.ToolUseEvent s.tool_use_id s.name none (some true) ::
        runStream none rest
    | none => runStream none rest
  | BedrockStreamEvent.messageStop :: _ => []
  | BedrockStreamEvent.metadata :: rest => runStream st rest
  | BedrockStreamEvent.unknown :: rest => runStream st rest

/-! ## `SendMessageOutput` request-id accessors (send_message_output.rs)

Each live variant wraps an SDK output whose request id both accessors read
through the same `request_id()` call; the wrapped output is represented by
that optional request id.
-/

/-- The `SendMessageOutput` enum, each live variant represented by the request
id its wrapped SDK output reports. -/
inductive SendMessageOutputE where
  | Bedrock (request_id : Option String) : SendMessageOutputE
  | Codewhisperer (request_id : Option String) : SendMessageOutputE
  | QDeveloper (request_id : Option String) : SendMessageOutputE
  | Mock (events : List ChatResponseStream) : SendMessageOutputE

/-- The inherent method `SendMessageOutput::request_id`:
returns `None` for the mock variant. -/
def requestIdInherent : SendMessageOutputE → Option String
  | SendMessageOutputE.Bedrock rid => rid
  | SendMessageOutputE.Codewhisperer rid => rid
  | SendMessageOutputE.QDeveloper rid => rid
  | SendMessageOutputE.Mock _ => none

/-- The `RequestId` trait implementation for `SendMessageOutput`:
returns `Some("<mock-request-id>")` for the mock variant. -/
def requestIdTrait : SendMessageOutputE → Option String
  | SendMessageOutputE.Bedrock rid => rid
  | SendMessageOutputE.Codewhisperer rid => rid
  | SendMessageOutputE.QDeveloper rid => rid
  | SendMessageOutputE.Mock _ => some "<mock-request-id>"

/-! ## Reference cascade for the error classifier

A second definition of the classifier, written following the spec's
description of the precedence, to be compared with the source-derived
`classify_error_kind`.
-/

/-- Modelled from the spec: the documented classification precedence, first
match wins: (1) input-too-long marker, (2) capacity marker or
(status 500 and model id present and legacy high-load marker),
(3) status 429, (4) monthly-request-count marker, (5) unknown with the
underlying error's reason code. -/
def classify_spec (status_code : Option Nat) (body : String)
    (model_id_opt : Option String) (sdk_error_code : String) :
    ConverseStreamErrorKind :=
  if containsStr body "Input is too long." then
    ConverseStreamErrorKind.ContextWindowOverflow
  else if containsStr body "INSUFFICIENT_MODEL_CAPACITY"
      || ((match status_code with
           | some status => status == 500
           | none => false)
          && model_id_opt.isSome
          && containsStr body
              "Encountered unexpectedly high load when processing the request, please try again.") then
    ConverseStreamErrorKind.ModelOverloadedError
  else if (match status_code with
           | some status => status == 429
           | none => false) then
    ConverseStreamErrorKind.Throttling
  else if containsStr body "MONTHLY_REQUEST_COUNT" then
    ConverseStreamErrorKind.MonthlyLimitReached
  else
    ConverseStreamErrorKind.Unknown sdk_error_code

/-! ## Helper lemmas -/

/-- Draining the mock queue by repeated `pop` returns its elements
back-to-front. -/
theorem drainMock_eq_reverse (v : List ChatResponseStream) :
    drainMock v = v.reverse := by
  induction v using List.reverseRecOn with
  | nil => simp [drainMock]
  | append_singleton xs x ih =>
    rw [drainMock]
    have h : xs ++ [x] ≠ [] := by simp
    simp [h, List.getLast_append, List.dropLast_concat, ih, List.reverse_append]

/-- Selects the `ToolUseEvent`s belonging to the given tool-use id. -/
def isToolUseEventFor (id : String) : ChatResponseStream → Bool
  | ChatResponseStream.ToolUseEvent tid _ _ _ => tid == id
  | _ => false

/-- Wire events that neither open a tool invocation nor end the stream:
while the adapter is idle they leave the tool state unchanged and emit no
`ToolUseEvent`. -/
def idleNeutral : BedrockStreamEvent → Bool
  | BedrockStreamEvent.contentBlockStart
      (some (ContentBlockStartPayload.toolUse _ _)) => false
  | BedrockStreamEvent.messageStop => false
  | _ => true

/-- Wire events allowed between a tool's block-start and its block-stop:
no new tool start, no block-stop, no stream end. -/
def openNeutral : BedrockStreamEvent → Bool
  | BedrockStreamEvent.contentBlockStart
      (some (ContentBlockStartPayload.toolUse _ _)) => false
  | BedrockStreamEvent.contentBlockStop => false
  | BedrockStreamEvent.messageStop => false
  | _ => true

/-- Wire events that never open a tool invocation with the given id. -/
def avoidsToolStart (id : String) : BedrockStreamEvent → Bool
  | BedrockStreamEvent.contentBlockStart
      (some (ContentBlockStartPayload.toolUse tid _)) => !(tid == id)
  | _ => true

/-- The tool-use input fragments of a wire event list, in arrival order. -/
def toolDeltaInputs : List BedrockStreamEvent → List String
  | [] => []
  | BedrockStreamEvent.contentBlockDelta
      (some (ContentBlockDeltaPayload.toolUse i)) :: rest => i :: toolDeltaInputs rest
  | _ :: rest => toolDeltaInputs rest

/-- An idle-neutral prefix contributes no `ToolUseEvent`s and leaves the
adapter idle. -/
theorem runStream_idle_append (id : String) (a rest : List BedrockStreamEvent)
    (ha : ∀ e ∈ a, idleNeutral e = true) :
    (runStream none (a ++ rest)).filter (isToolUseEventFor id)
      = (runStream none rest).filter (isToolUseEventFor id) := by
  induction a with
  | nil => rfl
  | cons e a ih =>
    have he := ha e (List.mem_cons_self e a)
    have ha2 : ∀ e2 ∈ a, idleNeutral e2 = true :=
      fun e2 h2 => ha e2 (List.mem_cons_of_mem e h2)
    cases e with
    | contentBlockStart p =>
      cases p with
      | none => simpa [runStream] using ih ha2
      | some q =>
        cases q with
        | toolUse tid nm => simp [idleNeutral] at he
    | contentBlockDelta p =>
      cases p with
      | none => simpa [runStream] using ih ha2
      | some q =>
        cases q with
        | text t =>
          by_cases ht : t.isEmpty
          · simpa [runStream, ht] using ih ha2
          · simpa [runStream, ht, isToolUseEventFor] using ih ha2
        | toolUse i => simpa [runStream] using ih ha2
        | other => simpa [runStream] using ih ha2
    | contentBlockStop => simpa [runStream] using ih ha2
    | messageStop => simp [idleNeutral] at he
    | metadata => simpa [runStream] using ih ha2
    | unknown => simpa [runStream] using ih ha2

/-- While a tool is open, an open-neutral segment contributes exactly one
`ToolUseEvent` per tool-use input fragment, carrying the fragment verbatim in
arrival order, and leaves the open tool unchanged. -/
theorem runStream_open_append (id name : String) (b rest : List BedrockStreamEvent)
    (hb : ∀ e ∈ b, openNeutral e = true) :
    (runStream (some { tool_use_id := id, name := name })
        (b ++ rest)).filter (isToolUseEventFor id)
      = (toolDeltaInputs b).map (fun i =>
          ChatResponseStream.ToolUseEvent id name (some i) none)
        ++ (runStream (some { tool_use_id := id, name := name })
            rest).filter (isToolUseEventFor id) := by
  induction b with
  | nil => rfl
  | cons e b ih =>
    have he := hb e (List.mem_cons_self e b)
    have hb2 : ∀ e2 ∈ b, openNeutral e2 = true :=
      fun e2 h2 => hb e2 (List.mem_cons_of_mem e h2)
    cases e with
    | contentBlockStart p =>
      cases p with
      | none => simpa [runStream, toolDeltaInputs] using ih hb2
      | some q =>
        cases q with
        | toolUse tid nm => simp [openNeutral] at he
    | contentBlockDelta p =>
      cases p with
      | none => simpa [runStream, toolDeltaInputs] using ih hb2
      | some q =>
        cases q with
        | text t =>
          by_cases ht : t.isEmpty
          · simpa [runStream, ht, toolDeltaInputs] using ih hb2
          · simpa [runStream, ht, toolDeltaInputs, isToolUseEventFor] using ih hb2
        | toolUse i =>
          simpa [runStream, toolDeltaInputs, isToolUseEventFor] using ih hb2
        | other => simpa [runStream, toolDeltaInputs] using ih hb2
    | contentBlockStop => simp [openNeutral] at he
    | messageStop => simp [openNeutral] at he
    | metadata => simpa [runStream, toolDeltaInputs] using ih hb2
    | unknown => simpa [runStream, toolDeltaInputs] using ih hb2

/-- After a tool's lifecycle is over, a tail that never starts a tool with
that id contributes no further `ToolUseEvent`s for it, from any adapter state
not currently holding that id. -/
theorem runStream_avoid (id : String) (st : Option ToolUseState)
    (c : List BedrockStreamEvent)
    (hst : ∀ s, st = some s → (s.tool_use_id == id) = false)
    (hc : ∀ e ∈ c, avoidsToolStart id e = true) :
    (runStream st c).filter (isToolUseEventFor id) = [] := by
  induction c generalizing st with
  | nil => rfl
  | cons e c ih =>
    have he := hc e (List.mem_cons_self e c)
    have hc2 : ∀ e2 ∈ c, avoidsToolStart id e2 = true :=
      fun e2 h2 => hc e2 (List.mem_cons_of_mem e h2)
    cases e with
    | contentBlockStart p =>
      cases p with
      | none => exact (by simpa [runStream] using ih st hst hc2)
      | some q =>
        cases q with
        | toolUse tid nm =>
          have htid : (tid == id) = false := by
            simpa [avoidsToolStart] using he
          have hnext : ∀ s,
              (some { tool_use_id := tid, name := nm } : Option ToolUseState)
                = some s → (s.tool_use_id == id) = false := by
            intro s hs
            cases hs
            simpa using htid
          simpa [runStream, isToolUseEventFor, htid]
            using ih (some { tool_use_id := tid, name := nm }) hnext hc2
    | contentBlockDelta p =>
      cases p with
      | none => exact (by simpa [runStream] using ih st hst hc2)
      | some q =>
        cases q with
        | text t =>
          by_cases ht : t.isEmpty
          · simpa [runStream, ht] using ih st hst hc2
          · simpa [runStream, ht, isToolUseEventFor] using ih st hst hc2
        | toolUse i =>
          cases st with
          | none => simpa [runStream] using ih none hst hc2
          | some s =>
            have hs := hst s rfl
            simpa [runStream, isToolUseEventFor, hs]
              using ih (some s) hst hc2
        | other => exact (by simpa [runStream] using ih st hst hc2)
    | contentBlockStop =>
      cases st with
      | none => simpa [runStream] using ih none (fun s hs => by cases hs) hc2
      | some s =>
        have hs := hst s rfl
        simpa [runStream, isToolUseEventFor, hs]
          using ih none (fun s2 hs2 => by cases hs2) hc2
    | messageStop => rfl
    | metadata => exact (by simpa [runStream] using ih st hst hc2)
    | unknown => exact (by simpa [runStream] using ih st hst hc2)

/-! ## Claim theorems -/

/-- Example conversation whose current turn is whitespace-only, with no tool
results and no history; its model id resolves to the default model, which is
on the allow-list. -/
def convWhitespace : ConversationState :=
  { conversation_id := none,
    user_input_message :=
      { content := "   ", user_input_message_context := none, model_id := none },
    history := none,
    service_tier := none,
    model_system_prompt := none,
    agent_prompt := none }

/-- C1 (counterexample): for the whitespace-only current turn with no tool
results and empty history, the encoder returns `Ok` with an *empty* message
list and `send_message` dispatches that empty payload over the network; it
does not fail with `MessageConversion`. -/
theorem c1_counterexample :
    convert_to_bedrock_messages convWhitespace.user_input_message
        convWhitespace.history = Except.ok []
    ∧ send_message none convWhitespace = Except.ok (SendAction.network
        { model_id := "openai.gpt-oss-120b-1:0",
          messages := [],
          tool_config := none,
          system_prompt := none,
          service_tier := none })
    ∧ send_message none convWhitespace
        ≠ Except.error ConverseStreamErrorKind.MessageConversion :=
  ⟨rfl, rfl, fun h => Except.noConfusion h⟩

/-- C1 (amended): encoding is total and in fact never fails — for every
input, `convert_to_bedrock_messages` returns `Ok` — and when the current
turn's text is whitespace-only, there are no tool results and the history is
empty, `send_message` dispatches a request whose message list is empty
instead of failing with `MessageConversion`. -/
theorem c1_amended (u : UserInputMessage) (hist : Option (List ChatMessage))
    (conv : ConversationState)
    (hmodel : validate_model_id
        (conv.user_input_message.model_id.getD get_default_model.model_id)
      = Except.ok ())
    (htext : (rustTrim conv.user_input_message.content).isEmpty = true)
    (htools : userToolResultBlocks conv.user_input_message = [])
    (hhist : conv.history = none) :
    (convert_to_bedrock_messages u hist).isOk = true
    ∧ ∃ req, send_message none conv = Except.ok (SendAction.network req)
        ∧ req.messages = [] := by
  refine ⟨rfl, ?_⟩
  simp only [send_message, hmodel, convert_to_bedrock_messages, convertHistory,
    hhist, htext, htools, if_true, List.append_nil, List.nil_append,
    List.isEmpty_nil, if_false]
  exact ⟨_, rfl, rfl⟩

/-- C1 witness: the amended theorem applied to `convWhitespace`. -/
theorem c1_witness :
    validate_model_id
        (convWhitespace.user_input_message.model_id.getD get_default_model.model_id)
      = Except.ok ()
    ∧ (rustTrim convWhitespace.user_input_message.content).isEmpty = true
    ∧ userToolResultBlocks convWhitespace.user_input_message = []
    ∧ convWhitespace.history = none
    ∧ ((convert_to_bedrock_messages convWhitespace.user_input_message none).isOk = true
        ∧ ∃ req, send_message none convWhitespace = Except.ok (SendAction.network req)
            ∧ req.messages = []) :=
  ⟨rfl, rfl, rfl, rfl,
    c1_amended convWhitespace.user_input_message none convWhitespace rfl rfl rfl rfl⟩

/-- C2: for a wire sequence opening one tool invocation (idle-neutral prefix
`a`, block-start for `id`/`name`, open-neutral segment `b`, block-stop, then
a tail `c` that never starts a tool with the same id), the adapter emits for
that id exactly: one start `ToolUseEvent` with no input and no stop flag,
then one `ToolUseEvent` per input fragment of `b`, verbatim and in arrival
order, then one final `ToolUseEvent` with no input and the stop flag set. -/
theorem c2_tool_use_assembler (id name : String)
    (a b c : List BedrockStreamEvent)
    (ha : ∀ e ∈ a, idleNeutral e = true)
    (hb : ∀ e ∈ b, openNeutral e = true)
    (hc : ∀ e ∈ c, avoidsToolStart id e = true) :
    (runStream none
        (a ++ BedrockStreamEvent.contentBlockStart
            (some (ContentBlockStartPayload.toolUse id name))
          :: (b ++ BedrockStreamEvent.contentBlockStop :: c))).filter
        (isToolUseEventFor id)
      = ChatResponseStream.ToolUseEvent id name none none
          :: ((toolDeltaInputs b).map (fun i =>
                ChatResponseStream.ToolUseEvent id name (some i) none)
            ++ [ChatResponseStream.ToolUseEvent id name none (some true)]) := by
  rw [runStream_idle_append id a _ ha]
  have hstep1 : runStream none
      (BedrockStreamEvent.contentBlockStart
          (some (ContentBlockStartPayload.toolUse id name))
        :: (b ++ BedrockStreamEvent.contentBlockStop :: c))
      = ChatResponseStream.ToolUseEvent id name none none
        :: runStream (some { tool_use_id := id, name := name })
            (b ++ BedrockStreamEvent.contentBlockStop :: c) := rfl
  rw [hstep1, List.filter_cons]
  have hkeep1 : isToolUseEventFor id
      (ChatResponseStream.ToolUseEvent id name none none) = true := by
    simp [isToolUseEventFor]
  rw [if_pos hkeep1,
    runStream_open_append id name b (BedrockStreamEvent.contentBlockStop :: c) hb]
  have hstep2 : runStream (some { tool_use_id := id, name := name })
      (BedrockStreamEvent.contentBlockStop :: c)
      = ChatResponseStream.ToolUseEvent id name none (some true)
        :: runStream none c := rfl
  rw [hstep2, List.filter_cons]
  have hkeep2 : isToolUseEventFor id
      (ChatResponseStream.ToolUseEvent id name none (some true)) = true := by
    simp [isToolUseEventFor]
  rw [if_pos hkeep2, runStream_avoid id none c (fun s hs => by cases hs) hc]

/-- C2 witness: a concrete stream with a metadata/text prefix, a text delta
and two input fragments inside the open tool, and a differently-named tool
plus stream end in the tail. -/
theorem c2_witness :
    (∀ e ∈ [BedrockStreamEvent.metadata,
            BedrockStreamEvent.contentBlockDelta
              (some (ContentBlockDeltaPayload.text "intro"))],
      idleNeutral e = true)
    ∧ (∀ e ∈ [BedrockStreamEvent.contentBlockDelta
                (some (ContentBlockDeltaPayload.text "mid")),
              BedrockStreamEvent.contentBlockDelta
                (some (ContentBlockDeltaPayload.toolUse "ab")),
              BedrockStreamEvent.contentBlockDelta
                (some (ContentBlockDeltaPayload.toolUse "cd")),
              BedrockStreamEvent.metadata],
        openNeutral e = true)
    ∧ (∀ e ∈ [BedrockStreamEvent.contentBlockStart
                (some (ContentBlockStartPayload.toolUse "tool-2" "other")),
              BedrockStreamEvent.contentBlockStop,
              BedrockStreamEvent.messageStop],
        avoidsToolStart "tool-1" e = true)
    ∧ (runStream none
        ([BedrockStreamEvent.metadata,
          BedrockStreamEvent.contentBlockDelta
            (some (ContentBlockDeltaPayload.text "intro"))]
          ++ BedrockStreamEvent.contentBlockStart
              (some (ContentBlockStartPayload.toolUse "tool-1" "search"))
            :: ([BedrockStreamEvent.contentBlockDelta
                  (some (ContentBlockDeltaPayload.text "mid")),
                BedrockStreamEvent.contentBlockDelta
                  (some (ContentBlockDeltaPayload.toolUse "ab")),
                BedrockStreamEvent.contentBlockDelta
                  (some (ContentBlockDeltaPayload.toolUse "cd")),
                BedrockStreamEvent.metadata]
              ++ BedrockStreamEvent.contentBlockStop
                :: [BedrockStreamEvent.contentBlockStart
                      (some (ContentBlockStartPayload.toolUse "tool-2" "other")),
                    BedrockStreamEvent.contentBlockStop,
                    BedrockStreamEvent.messageStop]))).filter
        (isToolUseEventFor "tool-1")
      = ChatResponseStream.ToolUseEvent "tool-1" "search" none none
          :: ((toolDeltaInputs
                [BedrockStreamEvent.contentBlockDelta
                  (some (ContentBlockDeltaPayload.text "mid")),
                BedrockStreamEvent.contentBlockDelta
                  (some (ContentBlockDeltaPayload.toolUse "ab")),
                BedrockStreamEvent.contentBlockDelta
                  (some (ContentBlockDeltaPayload.toolUse "cd")),
                BedrockStreamEvent.metadata]).map (fun i =>
                  ChatResponseStream.ToolUseEvent "tool-1" "search" (some i) none)
            ++ [ChatResponseStream.ToolUseEvent "tool-1" "search" none (some true)]) :=
  ⟨by decide, by decide, by decide,
    c2_tool_use_assembler "tool-1" "search"
      [BedrockStreamEvent.metadata,
       BedrockStreamEvent.contentBlockDelta
         (some (ContentBlockDeltaPayload.text "intro"))]
      [BedrockStreamEvent.contentBlockDelta
         (some (ContentBlockDeltaPayload.text "mid")),
       BedrockStreamEvent.contentBlockDelta
         (some (ContentBlockDeltaPayload.toolUse "ab")),
       BedrockStreamEvent.contentBlockDelta
         (some (ContentBlockDeltaPayload.toolUse "cd")),
       BedrockStreamEvent.metadata]
      [BedrockStreamEvent.contentBlockStart
         (some (ContentBlockStartPayload.toolUse "tool-2" "other")),
       BedrockStreamEvent.contentBlockStop,
       BedrockStreamEvent.messageStop]
      (by decide) (by decide) (by decide)⟩

/-- C3: `classify_error_kind` applies the documented precedence (it agrees
with the spec-shaped cascade `classify_spec` on every input), and in
particular a body carrying the capacity marker under status 429 classifies as
`ModelOverloadedError`, not `Throttling`. -/
theorem c3_classifier_precedence :
    (∀ (status_code : Option Nat) (body : String)
        (model_id_opt : Option String) (sdk_error_code : String),
      classify_error_kind status_code body model_id_opt sdk_error_code
        = classify_spec status_code body model_id_opt sdk_error_code)
    ∧ classify_error_kind (some 429) "INSUFFICIENT_MODEL_CAPACITY"
        (some "model-1") "throttled"
      = ConverseStreamErrorKind.ModelOverloadedError := by
  constructor
  · intro status_code body model_id_opt sdk_error_code
    cases status_code <;> cases model_id_opt <;>
      simp [classify_error_kind, classify_spec, Bool.and_comm]
  · rfl

/-- C7: a conversation whose resolved model id fails allow-list validation is
rejected with `InvalidModel` before anything else happens: no mock lookup, no
message conversion, and no network request value is ever produced. -/
theorem c7_invalid_model (mock : Option (List (List ChatResponseStream)))
    (conv : ConversationState)
    (h : (validate_model_id
        (conv.user_input_message.model_id.getD get_default_model.model_id)).isOk
      = false) :
    send_message mock conv = Except.error ConverseStreamErrorKind.InvalidModel := by
  cases hv : validate_model_id
      (conv.user_input_message.model_id.getD get_default_model.model_id) with
  | ok u => rw [hv] at h; simp [Except.isOk, Except.toBool] at h
  | error e => simp [send_message, hv]

/-- C7 witness: a model id absent from the allow-list, with a mock client
present, still yields `InvalidModel`. -/
theorem c7_witness :
    (validate_model_id
        ((some "not-a-real-model").getD get_default_model.model_id)).isOk = false
    ∧ send_message (some [[ChatResponseStream.AssistantResponseEvent "hi"]])
        { conversation_id := none,
          user_input_message :=
            { content := "Hello", user_input_message_context := none,
              model_id := some "not-a-real-model" },
          history := none, service_tier := none,
          model_system_prompt := none, agent_prompt := none }
      = Except.error ConverseStreamErrorKind.InvalidModel :=
  ⟨by decide,
    c7_invalid_model (some [[ChatResponseStream.AssistantResponseEvent "hi"]])
      { conversation_id := none,
        user_input_message :=
          { content := "Hello", user_input_message_context := none,
            model_id := some "not-a-real-model" },
        history := none, service_tier := none,
        model_system_prompt := none, agent_prompt := none }
      (by decide)⟩

/-- C8: a current turn with whitespace-only text and no tool results
contributes zero wire messages: the encoded payload is exactly the encoded
history, with no empty-content message appended. -/
theorem c8_whitespace_turn_omitted (u : UserInputMessage)
    (hist : Option (List ChatMessage))
    (htext : (rustTrim u.content).isEmpty = true)
    (htools : userToolResultBlocks u = []) :
    convert_to_bedrock_messages u hist = Except.ok (convertHistory hist) := by
  simp [convert_to_bedrock_messages, htext, htools]

/-- C8 witness: whitespace-only turn against a one-entry history encodes to
just that history message. -/
theorem c8_witness :
    ((rustTrim "  \t ").isEmpty = true)
    ∧ userToolResultBlocks
        { content := "  \t ", user_input_message_context := none, model_id := none }
      = []
    ∧ convert_to_bedrock_messages
        { content := "  \t ", user_input_message_context := none, model_id := none }
        (some [ChatMessage.AssistantResponseMessage
          { content := "prior reply", tool_uses := none }])
      = Except.ok (convertHistory (some [ChatMessage.AssistantResponseMessage
          { content := "prior reply", tool_uses := none }])) :=
  ⟨rfl, rfl,
    c8_whitespace_turn_omitted
      { content := "  \t ", user_input_message_context := none, model_id := none }
      (some [ChatMessage.AssistantResponseMessage
        { content := "prior reply", tool_uses := none }])
      rfl rfl⟩

/-- A conversation with a model id on the allow-list, used to drive the mock
path (validation runs before the mock branch). -/
def convMockValid : ConversationState :=
  { conversation_id := none,
    user_input_message :=
      { content := "Hello", user_input_message_context := none,
        model_id := some "openai.gpt-oss-120b-1:0" },
    history := none,
    service_tier := none,
    model_system_prompt := none,
    agent_prompt := none }

/-- The caller's receive loop body from the source tests: concatenate the
contents of the `AssistantResponseEvent`s in yield order. -/
def collectAssistantText (events : List ChatResponseStream) : String :=
  events.foldl (fun acc e =>
    match e with
    | ChatResponseStream.AssistantResponseEvent content => acc ++ content
    | _ => acc) ""

/-- C4 (counterexample): with the two-event fixture `["first", "second"]`,
the mock yields `"first"` then `"second"` — the *insertion* order, not its
reverse: `send_message` reverses the fixture response and `recv` pops from
the back, so the two reversals cancel. -/
theorem c4_counterexample :
    send_message
        (some (set_mock_output [[MockItem.text "first", MockItem.text "second"]]))
        convMockValid
      = Except.ok (SendAction.mock
          [ChatResponseStream.AssistantResponseEvent "second",
           ChatResponseStream.AssistantResponseEvent "first"])
    ∧ drainMock
        [ChatResponseStream.AssistantResponseEvent "second",
         ChatResponseStream.AssistantResponseEvent "first"]
      = [ChatResponseStream.AssistantResponseEvent "first",
         ChatResponseStream.AssistantResponseEvent "second"]
    ∧ [ChatResponseStream.AssistantResponseEvent "first",
       ChatResponseStream.AssistantResponseEvent "second"]
      ≠ [ChatResponseStream.AssistantResponseEvent "second",
         ChatResponseStream.AssistantResponseEvent "first"] := by
  refine ⟨rfl, ?_, by decide⟩
  rw [drainMock_eq_reverse]
  rfl

/-- C4 (amended): the deterministic mock returns the pre-seeded events of a
fixture response in their insertion order: `send_message` stores the response
reversed and each `recv` pops the last element, so draining the queue
restores the original order. -/
theorem c4_amended (responses : List (List ChatResponseStream))
    (r : List ChatResponseStream) (conv : ConversationState)
    (hmodel : validate_model_id
        (conv.user_input_message.model_id.getD get_default_model.model_id)
      = Except.ok ())
    (hhead : responses.head? = some r) :
    send_message (some responses) conv = Except.ok (SendAction.mock r.reverse)
    ∧ drainMock r.reverse = r := by
  constructor
  · simp [send_message, hmodel, hhead]
  · rw [drainMock_eq_reverse, List.reverse_reverse]

/-- C4 witness: the amended theorem applied to a concrete two-event fixture. -/
theorem c4_witness :
    validate_model_id
        (convMockValid.user_input_message.model_id.getD get_default_model.model_id)
      = Except.ok ()
    ∧ [[ChatResponseStream.AssistantResponseEvent "first",
        ChatResponseStream.AssistantResponseEvent "second"]].head?
      = some [ChatResponseStream.AssistantResponseEvent "first",
              ChatResponseStream.AssistantResponseEvent "second"]
    ∧ (send_message
          (some [[ChatResponseStream.AssistantResponseEvent "first",
                  ChatResponseStream.AssistantResponseEvent "second"]])
          convMockValid
        = Except.ok (SendAction.mock
            [ChatResponseStream.AssistantResponseEvent "first",
             ChatResponseStream.AssistantResponseEvent "second"].reverse)
      ∧ drainMock [ChatResponseStream.AssistantResponseEvent "first",
                   ChatResponseStream.AssistantResponseEvent "second"].reverse
        = [ChatResponseStream.AssistantResponseEvent "first",
           ChatResponseStream.AssistantResponseEvent "second"]) :=
  ⟨rfl, rfl,
    c4_amended
      [[ChatResponseStream.AssistantResponseEvent "first",
        ChatResponseStream.AssistantResponseEvent "second"]]
      [ChatResponseStream.AssistantResponseEvent "first",
       ChatResponseStream.AssistantResponseEvent "second"]
      convMockValid rfl rfl⟩

/-- C5: with the mock fixture `[["Hello!", " How can I", " assist you today?"]]`,
the receive loop yields exactly three `AssistantText` events whose contents
concatenated in yield order are `"Hello! How can I assist you today?"`, after
which the queue is empty and the stream ends. -/
theorem c5_mock_greeting :
    send_message
        (some (set_mock_output
          [[MockItem.text "Hello!", MockItem.text " How can I",
            MockItem.text " assist you today?"]]))
        convMockValid
      = Except.ok (SendAction.mock
          [ChatResponseStream.AssistantResponseEvent " assist you today?",
           ChatResponseStream.AssistantResponseEvent " How can I",
           ChatResponseStream.AssistantResponseEvent "Hello!"])
    ∧ drainMock
        [ChatResponseStream.AssistantResponseEvent " assist you today?",
         ChatResponseStream.AssistantResponseEvent " How can I",
         ChatResponseStream.AssistantResponseEvent "Hello!"]
      = [ChatResponseStream.AssistantResponseEvent "Hello!",
         ChatResponseStream.AssistantResponseEvent " How can I",
         ChatResponseStream.AssistantResponseEvent " assist you today?"]
    ∧ collectAssistantText
        [ChatResponseStream.AssistantResponseEvent "Hello!",
         ChatResponseStream.AssistantResponseEvent " How can I",
         ChatResponseStream.AssistantResponseEvent " assist you today?"]
      = "Hello! How can I assist you today?"
    ∧ mockRecv [] = none := by
  refine ⟨rfl, ?_, by decide, rfl⟩
  rw [drainMock_eq_reverse]
  rfl

/-- C6 (counterexample): a tool-use input delta and a block-stop arriving
while no tool invocation is open are silently skipped — the adapter's `recv`
loop `continue`s past them, emitting no event and raising no error (the only
error path in `recv` is a transport failure). -/
theorem c6_counterexample :
    runStream none
        [BedrockStreamEvent.contentBlockDelta
          (some (ContentBlockDeltaPayload.toolUse "42"))] = []
    ∧ runStream none [BedrockStreamEvent.contentBlockStop] = [] :=
  ⟨rfl, rfl⟩

/-- C6 (amended): the adapter tracks at most one open tool invocation (its
state holds a single optional tool), but a tool-use delta or block-stop with
no open invocation is silently skipped — processing continues exactly as if
the event had not arrived — and a block-start while a tool is open silently
replaces the open tool rather than faulting. -/
theorem c6_amended :
    (∀ (input : String) (rest : List BedrockStreamEvent),
      runStream none (BedrockStreamEvent.contentBlockDelta
          (some (ContentBlockDeltaPayload.toolUse input)) :: rest)
        = runStream none rest)
    ∧ (∀ rest : List BedrockStreamEvent,
      runStream none (BedrockStreamEvent.contentBlockStop :: rest)
        = runStream none rest)
    ∧ (∀ (st : Option ToolUseState) (id name : String)
        (rest : List BedrockStreamEvent),
      runStream st (BedrockStreamEvent.contentBlockStart
          (some (ContentBlockStartPayload.toolUse id name)) :: rest)
        = ChatResponseStream.ToolUseEvent id name none none
            :: runStream (some { tool_use_id := id, name := name }) rest) :=
  ⟨fun _ _ => rfl, fun _ => rfl, fun _ _ _ _ => rfl⟩

/-- A supplied tool whose input schema carries no JSON document
(an unresolvable schema). -/
def toolNoSchema : Tool :=
  Tool.ToolSpecification
    { name := "t", description := "d", input_schema := { json := none } }

/-- Conversation for C9: a tools-capable model with one supplied tool whose
schema is unresolvable. -/
def convToolNoSchema : ConversationState :=
  { conversation_id := none,
    user_input_message :=
      { content := "hi",
        user_input_message_context :=
          some { tool_results := none, tools := some [toolNoSchema] },
        model_id := some "openai.gpt-oss-120b-1:0" },
    history := none,
    service_tier := none,
    model_system_prompt := none,
    agent_prompt := none }

/-- C9 (counterexample): the model supports tools and the caller supplied a
tool list, but no supplied tool has a resolvable schema — yet a tool
configuration (with an empty tool list) is still attached to the request,
contradicting the claimed "only if ... resolvable schemas" condition. -/
theorem c9_counterexample :
    model_supports_tools "openai.gpt-oss-120b-1:0" = true
    ∧ convert_tools_to_bedrock (some [toolNoSchema])
      = some { tools := [] }
    ∧ send_message none convToolNoSchema
      = Except.ok (SendAction.network
          { model_id := "openai.gpt-oss-120b-1:0",
            messages := [{ role := ConversationRole.User,
                           content := [ContentBlock.Text "hi"] }],
            tool_config := some { tools := [] },
            system_prompt := none,
            service_tier := none })
    ∧ (some ({ tools := [] } : ToolConfiguration) ≠ none) :=
  ⟨rfl, rfl, rfl, fun h => Option.noConfusion h⟩

/-- C9 (amended): a tool configuration is attached iff the model's capability
entry declares tool support *and* the caller supplied a tools list at all;
tools lacking a resolvable schema are dropped from the configuration
individually (possibly leaving it empty), and when the model lacks tool
support the supplied tools are silently omitted while the request still
succeeds. -/
theorem c9_amended (conv : ConversationState)
    (hmodel : validate_model_id
        (conv.user_input_message.model_id.getD get_default_model.model_id)
      = Except.ok ()) :
    ∃ req, send_message none conv = Except.ok (SendAction.network req)
      ∧ req.tool_config
        = (if model_supports_tools
              (conv.user_input_message.model_id.getD get_default_model.model_id)
           then convert_tools_to_bedrock
              (conv.user_input_message.user_input_message_context.bind
                (fun ctx => ctx.tools))
           else none)
      ∧ (req.tool_config.isSome
        = (model_supports_tools
              (conv.user_input_message.model_id.getD get_default_model.model_id)
            && (conv.user_input_message.user_input_message_context.bind
                (fun ctx => ctx.tools)).isSome))
      ∧ (∀ tool_list, convert_tools_to_bedrock (some tool_list)
        = some { tools := tool_list.filterMap (fun t =>
            match t with
            | Tool.ToolSpecification spec =>
              spec.input_schema.json.map (fun doc =>
                BedrockTool.ToolSpec spec.name spec.description doc)) }) := by
  simp only [send_message, hmodel, convert_to_bedrock_messages]
  refine ⟨_, rfl, rfl, ?_, fun tool_list => rfl⟩
  cases hst : model_supports_tools
      (conv.user_input_message.model_id.getD get_default_model.model_id)
  · simp
  · cases hts : conv.user_input_message.user_input_message_context.bind
        (fun ctx => ctx.tools) <;>
      simp [convert_tools_to_bedrock, hts]

/-- C9 witness: the amended theorem applied to the unresolvable-schema
conversation. -/
theorem c9_witness :
    validate_model_id
        (convToolNoSchema.user_input_message.model_id.getD get_default_model.model_id)
      = Except.ok ()
    ∧ ∃ req, send_message none convToolNoSchema = Except.ok (SendAction.network req)
      ∧ req.tool_config
        = (if model_supports_tools
              (convToolNoSchema.user_input_message.model_id.getD
                get_default_model.model_id)
           then convert_tools_to_bedrock
              (convToolNoSchema.user_input_message.user_input_message_context.bind
                (fun ctx => ctx.tools))
           else none)
      ∧ (req.tool_config.isSome
        = (model_supports_tools
              (convToolNoSchema.user_input_message.model_id.getD
                get_default_model.model_id)
            && (convToolNoSchema.user_input_message.user_input_message_context.bind
                (fun ctx => ctx.tools)).isSome))
      ∧ (∀ tool_list, convert_tools_to_bedrock (some tool_list)
        = some { tools := tool_list.filterMap (fun t =>
            match t with
            | Tool.ToolSpecification spec =>
              spec.input_schema.json.map (fun doc =>
                BedrockTool.ToolSpec spec.name spec.description doc)) }) :=
  ⟨rfl, c9_amended convToolNoSchema rfl⟩

/-- C10: the inherent `request_id` method and the `RequestId` trait
implementation disagree on the mock variant (`none` vs
`some "<mock-request-id>"`), and agree on every live backend variant. -/
theorem c10_request_id_accessors :
    (∀ events,
      requestIdInherent (SendMessageOutputE.Mock events) = none
      ∧ requestIdTrait (SendMessageOutputE.Mock events) = some "<mock-request-id>"
      ∧ requestIdInherent (SendMessageOutputE.Mock events)
          ≠ requestIdTrait (SendMessageOutputE.Mock events))
    ∧ (∀ rid,
      requestIdInherent (SendMessageOutputE.Bedrock rid)
          = requestIdTrait (SendMessageOutputE.Bedrock rid)
      ∧ requestIdInherent (SendMessageOutputE.Codewhisperer rid)
          = requestIdTrait (SendMessageOutputE.Codewhisperer rid)
      ∧ requestIdInherent (SendMessageOutputE.QDeveloper rid)
          = requestIdTrait (SendMessageOutputE.QDeveloper rid)) := by
  constructor
  · intro events
    exact ⟨rfl, rfl, fun h => Option.noConfusion h⟩
  · intro rid
    exact ⟨rfl, rfl, rfl⟩

end QCli
